import Mathlib

/-!
Verification of the incremental replication engine of the realtor-db
repository: a shallow embedding of the circuit breaker, rate limiter,
retry/backoff governor, checkpoint store, entity upsert engine, media
reconciliation engine and run-mode selection, with theorems settling the
specification claims about them.

Sources embedded (JavaScript):
  - src/services/ampre-api.js         (CircuitBreaker, handleRateLimit,
                                       RateLimiter, getPropertyBatch retry
                                       loop, updateMediaForProperties)
  - src/services/schema-discovery.js  (mapProperty, processMediaItem,
                                       replicateProperties, replicateMedia)
  - src/db/index.js                   (getReplicationState,
                                       updateReplicationState, upsertListing,
                                       upsertMedia, isListingInDatabase)
  - src/scripts/run-optimized-replication.js (determineSyncMode,
                                       runOptimizedReplication)

Conventions. JavaScript numbers are modelled exactly: millisecond clocks and
counters as `Nat`, fractional token counts scaled by 1000 into `Nat`
(the source only ever adds multiples of `elapsedMs * rate / 1000`), decimal
record fields as `Rat`. JS `null`/`undefined` is `Option.none`. JS truthiness
on a number is `x ≠ 0`, on a string `s ≠ ""`. Asynchronous fan-out is
modelled sequentially (completion order = arrival order), with per-record
failure represented by a Boolean oracle.
-/

namespace RealtorDb

/-! ## Circuit breaker (src/services/ampre-api.js, class CircuitBreaker) -/

/-- The three states of the breaker: the source strings
CLOSED / OPEN / HALF_OPEN. -/
inductive CBState
  | closed
  | opened
  | halfOpen
deriving DecidableEq, Repr

/-- Outcome of the wrapped `fn()`: a normal return, a non-throttling error,
or an HTTP 429 throttling error (`error.response.status === 429`). -/
inductive Outcome
  | success
  | genuineFailure
  | throttle
deriving DecidableEq, Repr, BEq

/-- What `execute` does for the caller: fast-fail rejection while OPEN,
a returned result, or a re-thrown error. -/
inductive CallResult
  | rejected
  | returned
  | raised429
  | raisedFailure
deriving DecidableEq, Repr

/-- The mutable fields of the `CircuitBreaker` class, plus its two
constructor options. `lastFailureTime` is a millisecond clock value
(0 standing for the initial `null`, which is never consulted while the
breaker is CLOSED). -/
structure CircuitBreaker where
  state : CBState
  failureCount : Nat
  successCount : Nat
  lastFailureTime : Nat
  threshold : Nat
  resetTimeout : Nat
deriving DecidableEq, Repr

/-- Source `CircuitBreaker.execute(fn)` at time `now`, where the wrapped call's
outcome is `o`. Mirrors the source line by line: the OPEN gate either
fast-fails or moves to HALF_OPEN before running `fn`; a success in
HALF_OPEN increments `successCount` and resets after 3; a 429 is passed
through untouched; any other failure increments `failureCount`, records
`lastFailureTime`, and opens the circuit when the CLOSED count reaches
`threshold` or immediately in HALF_OPEN. -/
def CircuitBreaker.execute (b : CircuitBreaker) (now : Nat) (o : Outcome) :
    CircuitBreaker × CallResult :=
  if b.state = .opened ∧ ¬ (b.lastFailureTime + b.resetTimeout < now) then
    (b, .rejected)
  else
    let b1 := if b.state = .opened then { b with state := .halfOpen } else b
    match o with
    | .success =>
      if b1.state = .halfOpen then
        if 3 ≤ b1.successCount + 1 then
          ({ b1 with state := .closed, failureCount := 0, successCount := 0 },
            .returned)
        else
          ({ b1 with successCount := b1.successCount + 1 }, .returned)
      else (b1, .returned)
    | .throttle => (b1, .raised429)
    | .genuineFailure =>
      let b2 := { b1 with failureCount := b1.failureCount + 1,
                          lastFailureTime := now }
      if (b1.state = .closed ∧ b1.threshold ≤ b1.failureCount + 1) ∨
          b1.state = .halfOpen then
        ({ b2 with state := .opened }, .raisedFailure)
      else (b2, .raisedFailure)

/-- Run a sequence of timed calls through one breaker instance. -/
def runCalls (b : CircuitBreaker) : List (Nat × Outcome) → CircuitBreaker
  | [] => b
  | (t, o) :: rest => runCalls (b.execute t o).1 rest

/-- Length of the trailing run of consecutive non-throttling failures in a
call-outcome sequence (what "consecutive failures" counts just before the
last call of the sequence). -/
def trailingFailures (l : List Outcome) : Nat :=
  (l.reverse.takeWhile (fun o => o == Outcome.genuineFailure)).length

/-! ## Throttling governor (src/services/ampre-api.js, handleRateLimit and
the `while (true)` retry loop shared by getMetadata / getPropertyById /
getPropertyBatch / countProperties) -/

/-- One upstream HTTP response: a successful page, a 429 carrying the
optional `x-rate-limit-retry-after-seconds` header (absent or unparsable
header is `none`, matching `parseInt(undefined) = NaN`), or a
non-throttling error. -/
inductive Resp (α : Type)
  | ok (a : α)
  | throttle (retryAfterSeconds : Option Nat)
  | err
deriving DecidableEq, Repr

/-- Source `handleRateLimit(error, retryCount)`. For a 429 under
the retry budget it returns the wait in milliseconds: the header value
times 1000 when the header parses to a positive number, otherwise
`2 ^ retryCount * RETRY_DELAY_BASE`; in every other case it declines
(`false` in the source, `none` here). -/
def handleRateLimit (maxRetries retryDelayBase : Nat) (r : Resp α)
    (retryCount : Nat) : Option Nat :=
  match r with
  | .throttle h =>
    if retryCount < maxRetries then
      some (match h with
        | some s => if 0 < s then s * 1000 else 2 ^ retryCount * retryDelayBase
        | none => 2 ^ retryCount * retryDelayBase)
    else none
  | _ => none

/-- Result of the retry loop: what it returns or throws, together with the
sleeps it performed (in ms, in order) and the number of upstream calls it
issued. `exhausted` marks a run that consumed every scripted response
without returning (the source loop would issue a further call). -/
inductive LoopOut (α : Type)
  | success (a : α) (sleeps : List Nat) (calls : Nat)
  | failure (last : Resp α) (sleeps : List Nat) (calls : Nat)
  | exhausted (sleeps : List Nat) (calls : Nat)
deriving DecidableEq, Repr

/-- The `while (true) { try ... catch { if (await handleRateLimit(error,
retryCount)) { retryCount++; continue; } throw error; } }` loop, driven by
a script of responses consumed one per upstream call. -/
def fetchLoop (maxRetries retryDelayBase : Nat) :
    List (Resp α) → Nat → List Nat → Nat → LoopOut α
  | [], _, sleeps, calls => .exhausted sleeps calls
  | r :: rest, retryCount, sleeps, calls =>
    match r with
    | .ok a => .success a sleeps (calls + 1)
    | .throttle h =>
      match handleRateLimit maxRetries retryDelayBase
          (Resp.throttle h : Resp α) retryCount with
      | some w => fetchLoop maxRetries retryDelayBase rest (retryCount + 1)
          (sleeps ++ [w]) (calls + 1)
      | none => .failure (.throttle h) sleeps (calls + 1)
    | .err =>
      match handleRateLimit maxRetries retryDelayBase (Resp.err : Resp α)
          retryCount with
      | some w => fetchLoop maxRetries retryDelayBase rest (retryCount + 1)
          (sleeps ++ [w]) (calls + 1)
      | none => .failure .err sleeps (calls + 1)

/-- How the loop's final outcome presents to `CircuitBreaker.execute`'s
try/catch: a return, a re-thrown 429, or a genuine error. -/
def LoopOut.outcome : LoopOut α → Outcome
  | .success .. => .success
  | .failure (.throttle _) .. => .throttle
  | .failure _ .. | .exhausted .. => .genuineFailure

/-- Source `propertyCircuit.execute` wrapping the retry loop: the retry
loop runs as the breaker's `fn`, and the breaker reacts to its final
outcome. Returns the breaker afterwards plus the loop transcript. -/
def executeFetch (b : CircuitBreaker) (now maxRetries retryDelayBase : Nat)
    (responses : List (Resp α)) : CircuitBreaker × CallResult × LoopOut α :=
  let out := fetchLoop maxRetries retryDelayBase responses 0 [] 0
  let (b', r) := b.execute now out.outcome
  (b', r, out)

/-- Default `API_MAX_RETRIES`. -/
def MAX_RETRIES : Nat := 5

/-- Default `API_RETRY_DELAY` (ms). -/
def RETRY_DELAY_BASE : Nat := 2000

/-! ## Token-bucket rate limiter (src/services/ampre-api.js, class
RateLimiter). Token counts are scaled by 1000 so the arithmetic is exact:
the source stores `tokens` with `tokens += (elapsedMs / 1000) *
tokensPerSecond`, so every value it ever holds is a multiple of 1/1000. -/

/-- The `RateLimiter` state: `milliTokens` is `1000 * this.tokens`,
`pendingCount` the length of `this.pendingRequests`. -/
structure RateLimiter where
  tokensPerSecond : Nat
  milliTokens : Nat
  lastRefill : Nat
  pendingCount : Nat
deriving DecidableEq, Repr

/-- The constructor: a full bucket at creation time `t0`. -/
def mkRateLimiter (tokensPerSecond t0 : Nat) : RateLimiter :=
  { tokensPerSecond := tokensPerSecond, milliTokens := 1000 * tokensPerSecond,
    lastRefill := t0, pendingCount := 0 }

/-- The `while (this.tokens >= 1 && this.pendingRequests.length > 0)` drain
loop inside `refillTokens`: returns the remaining milli-tokens, the
remaining queue length, and how many queued callers were resolved. -/
def drainQueue : Nat → Nat → Nat → Nat × Nat × Nat
  | m, 0, released => (m, 0, released)
  | m, p + 1, released =>
    if 1000 ≤ m then drainQueue (m - 1000) p (released + 1)
    else (m, p + 1, released)

/-- Source `refillTokens()` at clock `now`: adds `elapsedMs * rate` milli-tokens
capped at the bucket size, then drains the queue; a non-positive elapsed
time does nothing. Returns the new state and the number of queued callers
released. -/
def RateLimiter.refillTokens (rl : RateLimiter) (now : Nat) :
    RateLimiter × Nat :=
  let elapsedMs := now - rl.lastRefill
  if 0 < elapsedMs then
    let m := min (1000 * rl.tokensPerSecond)
      (rl.milliTokens + elapsedMs * rl.tokensPerSecond)
    let d := drainQueue m rl.pendingCount 0
    ({ rl with milliTokens := d.1, lastRefill := now, pendingCount := d.2.1 },
      d.2.2)
  else (rl, 0)

/-- Source `getToken()` at clock `now`: refill (possibly releasing queued
callers), then either take a token and return immediately (`true`) or join
the queue (`false`). -/
def RateLimiter.getToken (rl : RateLimiter) (now : Nat) :
    RateLimiter × Nat × Bool :=
  let r := rl.refillTokens now
  if 1000 ≤ r.1.milliTokens then
    ({ r.1 with milliTokens := r.1.milliTokens - 1000 }, r.2, true)
  else
    ({ r.1 with pendingCount := r.1.pendingCount + 1 }, r.2, false)

/-- Run a sequence of `getToken` calls at the given clock times; the second
component counts every caller released during the run (immediately or from
the queue). Releases happen only here: in the source `refillTokens` is
invoked solely from `getToken`, there is no timer. -/
def runTrace (rl : RateLimiter) : List Nat → RateLimiter × Nat
  | [] => (rl, 0)
  | t :: ts =>
    let g := rl.getToken t
    let rest := runTrace g.1 ts
    (rest.1, g.2.1 + (if g.2.2 then 1 else 0) + rest.2)

/-! ## Checkpoint store (src/db/index.js, getReplicationState /
updateReplicationState) -/

/-- One row of the `replication_state` table, as read by
`getReplicationState`: the watermark pair and the cumulative counter. -/
structure ReplicationState where
  lastTimestamp : String
  lastKey : String
  recordsProcessed : Nat
deriving DecidableEq, Repr

/-- The statements a db/index.js function issues on its pooled client, at
the granularity relevant to transaction boundaries. -/
inductive DbCmd
  | beginTxn
  | commitTxn
  | selectRecordsProcessed
  | updateStateRow
  | insertListingOnConflictUpdate
  | insertMediaOnConflictUpdate
deriving DecidableEq, Repr

/-- The statements `updateReplicationState` issues, in order: a bare
SELECT of the current counter followed by a bare UPDATE. No BEGIN/COMMIT
appears in the source function. -/
def updateReplicationStateCmds : List DbCmd :=
  [.selectRecordsProcessed, .updateStateRow]

/-- The statements `upsertListing` issues: BEGIN, the dynamic
INSERT ... ON CONFLICT (id) DO UPDATE, COMMIT. -/
def upsertListingCmds : List DbCmd :=
  [.beginTxn, .insertListingOnConflictUpdate, .commitTxn]

/-- The statements `upsertMedia` issues: BEGIN, the dynamic
INSERT ... ON CONFLICT (media_key) DO UPDATE, COMMIT. -/
def upsertMediaCmds : List DbCmd :=
  [.beginTxn, .insertMediaOnConflictUpdate, .commitTxn]

/-- A call whose statements all run inside one explicit transaction: it
opens with BEGIN and closes with COMMIT (the success-path shape of
`upsertListing` and `upsertMedia`). -/
def wrappedInTransaction (cmds : List DbCmd) : Prop :=
  cmds.head? = some .beginTxn ∧ cmds.getLast? = some .commitTxn

instance (cmds : List DbCmd) : Decidable (wrappedInTransaction cmds) :=
  inferInstanceAs (Decidable (_ ∧ _))

/-- Data effect of `updateReplicationState(resourceName, lastTimestamp,
lastKey, recordsProcessed)` on the resource's row (`none` = row absent, in
which case the UPDATE matches nothing). The source reads the current
counter, adds the delta to it when both are non-zero (`records_processed`
of 0 is falsy, and the delta is added only `if (recordsProcessed > 0)`),
and writes watermark, counter and `last_run_at` in one UPDATE. -/
def updateReplicationState (row : Option ReplicationState)
    (lastTimestamp lastKey : String) (recordsProcessed : Nat) :
    Option ReplicationState :=
  match row with
  | some s =>
    let totalRecordsProcessed :=
      if s.recordsProcessed ≠ 0 then
        if 0 < recordsProcessed then s.recordsProcessed + recordsProcessed
        else s.recordsProcessed
      else recordsProcessed
    some { lastTimestamp := lastTimestamp, lastKey := lastKey,
           recordsProcessed := totalRecordsProcessed }
  | none => none

/-! ## Run-mode selection (src/scripts/run-optimized-replication.js,
determineSyncMode and the media-only branch of runOptimizedReplication) -/

/-- The three run modes (`SYNC_MODES`). -/
inductive SyncMode
  | full
  | incremental
  | mediaOnly
deriving DecidableEq, Repr

/-- The initial sentinel the Entity checkpoint is created with. -/
def sentinelTimestamp : String := "1970-01-01T00:00:00Z"

/-- Source `determineSyncMode()`: Full when the Entity checkpoint still holds the
creation sentinel; otherwise Media-only when the Media checkpoint's
cumulative `recordsProcessed` counter is divisible by 4 (the literal `% 4`
of the source); otherwise Incremental. -/
def determineSyncMode (propertyState mediaState : ReplicationState) :
    SyncMode :=
  if propertyState.lastTimestamp = sentinelTimestamp ∧
      propertyState.lastKey = "0" then .full
  else if mediaState.recordsProcessed % 4 = 0 then .mediaOnly
  else .incremental

/-- Effect of one cycle on the Media checkpoint row, per
`runOptimizedReplication`: only the media-only branch touches it, and only
when the media-change scan found candidates
(`updateReplicationState('Media', new Date().toISOString(), '0',
mediaResult.mediaProcessed)`); the full and incremental branches call
`replicateMedia`, which never writes the checkpoint. -/
def mediaStateAfterCycle (propertyState mediaState : ReplicationState)
    (candidates : List String) (now : String) (mediaProcessed : Nat) :
    ReplicationState :=
  match determineSyncMode propertyState mediaState with
  | .mediaOnly =>
    if candidates ≠ [] then
      (updateReplicationState (some mediaState) now "0" mediaProcessed).getD
        mediaState
    else mediaState
  | _ => mediaState

/-! ## Entity upsert engine (src/services/schema-discovery.js, mapProperty;
src/db/index.js, upsertListing).

Raw AMPRE fields are optional JSON values: strings as `Option String`,
decimals as `Option Rat`, integer-valued fields as `Option Int`, arrays as
`Option (List String)`. `parseFloat`/`parseInt` on such a value is the
value itself; JS truthiness on a number is `≠ 0`, on a string `≠ ""`.
Timestamps are kept as their source strings (`new Date(s)` wraps the same
instant). -/

/-- The raw upstream Property record, restricted to the fields `mapProperty`
reads. `ListingKey` and `ModificationTimestamp` are the replication keys
and always present upstream. -/
structure RawProperty where
  ListingKey : String
  ModificationTimestamp : String
  UnparsedAddress : Option String := none
  StreetNumber : Option String := none
  StreetName : Option String := none
  StreetSuffix : Option String := none
  UnitNumber : Option String := none
  City : Option String := none
  StateOrProvince : Option String := none
  PostalCode : Option String := none
  Country : Option String := none
  CountyOrParish : Option String := none
  Latitude : Option Rat := none
  Longitude : Option Rat := none
  GeoSource : Option String := none
  PropertyType : Option String := none
  PropertySubType : Option String := none
  TransactionType : Option String := none
  ContractStatus : Option String := none
  BuildingName : Option String := none
  YearBuilt : Option Int := none
  LotSizeArea : Option Rat := none
  LotSizeUnits : Option String := none
  BuildingAreaTotal : Option Rat := none
  AboveGradeFinishedArea : Option Rat := none
  BelowGradeFinishedArea : Option Rat := none
  LotWidth : Option Rat := none
  LotDepth : Option Rat := none
  FrontageLength : Option String := none
  BedroomsTotal : Option Int := none
  BedroomsAboveGrade : Option Int := none
  BedroomsBelowGrade : Option Int := none
  BathroomsTotalInteger : Option Int := none
  KitchensTotal : Option Int := none
  RoomsTotal : Option Int := none
  InteriorFeatures : Option (List String) := none
  ExteriorFeatures : Option (List String) := none
  ParkingFeatures : Option (List String) := none
  WaterfrontFeatures : Option (List String) := none
  Zoning : Option String := none
  BusinessType : Option (List String) := none
  ListPrice : Option Rat := none
  OriginalListPrice : Option Rat := none
  ClosePrice : Option Rat := none
  AssociationFee : Option Rat := none
  TaxAnnualAmount : Option Rat := none
  TaxYear : Option Int := none
  VirtualTourURLUnbranded : Option String := none
  VirtualTourURLBranded : Option String := none
  PublicRemarks : Option String := none
  PrivateRemarks : Option String := none
  TaxLegalDescription : Option String := none
  Directions : Option String := none
  ListingContractDate : Option String := none
  ExpirationDate : Option String := none
  CloseDate : Option String := none
  StandardStatus : Option String := none
  OriginatingSystemID : Option String := none
  OriginatingSystemName : Option String := none
deriving DecidableEq, Repr

/-- Source `extractFieldValue(property, field, defaultValue = null)`: the field
value when defined, else the default. -/
def extractFieldValue (v : Option α) : Option α := v

/-- Source `extractArrayField(property, field)`: null unless the value is a
non-empty array. -/
def extractArrayField (v : Option (List String)) : Option (List String) :=
  match v with
  | some l => if l = [] then none else some l
  | none => none

/-- The `extractFieldValue(p, f) ? parseFloat(p.f) : null` pattern on a
decimal field: a present value survives only if truthy (non-zero). -/
def numFieldQ (v : Option Rat) : Option Rat :=
  match v with
  | some x => if x = 0 then none else some x
  | none => none

/-- The `extractFieldValue(p, f) ? parseInt(p.f, 10) : null` pattern on an
integer-valued field. -/
def numFieldZ (v : Option Int) : Option Int :=
  match v with
  | some x => if x = 0 then none else some x
  | none => none

/-- JS `a || b` on nullable strings: empty string is falsy. -/
def orFalsyStr (a b : Option String) : Option String :=
  match a with
  | some s => if s = "" then b else some s
  | none => b

/-- One row of the `listings` table in the shape `mapProperty` produces
(the object handed to `upsertListing`, whose dynamic SQL enumerates every
one of these keys). -/
structure ListingData where
  id : String
  unparsed_address : Option String := none
  street_number : Option String := none
  street_name : Option String := none
  street_suffix : Option String := none
  unit_number : Option String := none
  city : Option String := none
  province : Option String := none
  postal_code : Option String := none
  country : Option String := none
  county_or_parish : Option String := none
  latitude : Option Rat := none
  longitude : Option Rat := none
  geo_source : Option String := none
  property_type : Option String := none
  property_sub_type : Option String := none
  transaction_type : Option String := none
  contract_status : Option String := none
  building_name : Option String := none
  year_built : Option Int := none
  lot_size_area : Option Rat := none
  lot_size_units : Option String := none
  living_area : Option Rat := none
  above_grade_finished_area : Option Rat := none
  below_grade_finished_area : Option Rat := none
  lot_width : Option Rat := none
  lot_depth : Option Rat := none
  lot_frontage : Option String := none
  bedrooms_total : Option Int := none
  bedrooms_above_grade : Option Int := none
  bedrooms_below_grade : Option Int := none
  bathrooms_total : Option Int := none
  kitchens_total : Option Int := none
  rooms_total : Option Int := none
  interior_features : Option (List String) := none
  exterior_features : Option (List String) := none
  parking_features : Option (List String) := none
  water_features : Option (List String) := none
  zoning : Option String := none
  business_type : Option (List String) := none
  list_price : Option Rat := none
  original_list_price : Option Rat := none
  close_price : Option Rat := none
  association_fee : Option Rat := none
  tax_annual_amount : Option Rat := none
  tax_year : Option Int := none
  media_keys : List String := []
  preferred_media_key : Option String := none
  virtual_tour_url : Option String := none
  public_remarks : Option String := none
  private_remarks : Option String := none
  tax_legal_description : Option String := none
  directions : Option String := none
  list_date : Option String := none
  expiration_date : Option String := none
  close_date : Option String := none
  standard_status : Option String := none
  modification_timestamp : String
  originating_system_id : Option String := none
  originating_system_name : Option String := none
  raw : RawProperty
deriving DecidableEq, Repr

/-- Source `mapProperty(property)`: the full field-by-field mapping from the raw
record to the storage row. Media linkage starts empty
(`media_keys: [], preferred_media_key: null`); the complete raw record is
kept in `raw`. -/
def mapProperty (property : RawProperty) : ListingData :=
  { id := property.ListingKey,
    unparsed_address := extractFieldValue property.UnparsedAddress,
    street_number := extractFieldValue property.StreetNumber,
    street_name := extractFieldValue property.StreetName,
    street_suffix := extractFieldValue property.StreetSuffix,
    unit_number := extractFieldValue property.UnitNumber,
    city := extractFieldValue property.City,
    province := extractFieldValue property.StateOrProvince,
    postal_code := extractFieldValue property.PostalCode,
    country := extractFieldValue property.Country,
    county_or_parish := extractFieldValue property.CountyOrParish,
    latitude := numFieldQ property.Latitude,
    longitude := numFieldQ property.Longitude,
    geo_source := extractFieldValue property.GeoSource,
    property_type := extractFieldValue property.PropertyType,
    property_sub_type := extractFieldValue property.PropertySubType,
    transaction_type := extractFieldValue property.TransactionType,
    contract_status := extractFieldValue property.ContractStatus,
    building_name := extractFieldValue property.BuildingName,
    year_built := numFieldZ property.YearBuilt,
    lot_size_area := numFieldQ property.LotSizeArea,
    lot_size_units := extractFieldValue property.LotSizeUnits,
    living_area := numFieldQ property.BuildingAreaTotal,
    above_grade_finished_area := numFieldQ property.AboveGradeFinishedArea,
    below_grade_finished_area := numFieldQ property.BelowGradeFinishedArea,
    lot_width := numFieldQ property.LotWidth,
    lot_depth := numFieldQ property.LotDepth,
    lot_frontage := extractFieldValue property.FrontageLength,
    bedrooms_total := numFieldZ property.BedroomsTotal,
    bedrooms_above_grade := numFieldZ property.BedroomsAboveGrade,
    bedrooms_below_grade := numFieldZ property.BedroomsBelowGrade,
    bathrooms_total := numFieldZ property.BathroomsTotalInteger,
    kitchens_total := numFieldZ property.KitchensTotal,
    rooms_total := numFieldZ property.RoomsTotal,
    interior_features := extractArrayField property.InteriorFeatures,
    exterior_features := extractArrayField property.ExteriorFeatures,
    parking_features := extractArrayField property.ParkingFeatures,
    water_features := extractArrayField property.WaterfrontFeatures,
    zoning := extractFieldValue property.Zoning,
    business_type := extractArrayField property.BusinessType,
    list_price := numFieldQ property.ListPrice,
    original_list_price := numFieldQ property.OriginalListPrice,
    close_price := numFieldQ property.ClosePrice,
    association_fee := numFieldQ property.AssociationFee,
    tax_annual_amount := numFieldQ property.TaxAnnualAmount,
    tax_year := numFieldZ property.TaxYear,
    media_keys := [],
    preferred_media_key := none,
    virtual_tour_url := orFalsyStr
      (extractFieldValue property.VirtualTourURLUnbranded)
      (extractFieldValue property.VirtualTourURLBranded),
    public_remarks := extractFieldValue property.PublicRemarks,
    private_remarks := extractFieldValue property.PrivateRemarks,
    tax_legal_description := extractFieldValue property.TaxLegalDescription,
    directions := extractFieldValue property.Directions,
    list_date := extractFieldValue property.ListingContractDate,
    expiration_date := extractFieldValue property.ExpirationDate,
    close_date := extractFieldValue property.CloseDate,
    standard_status := extractFieldValue property.StandardStatus,
    modification_timestamp := property.ModificationTimestamp,
    originating_system_id := extractFieldValue property.OriginatingSystemID,
    originating_system_name :=
      extractFieldValue property.OriginatingSystemName,
    raw := property }

/-- The `listings` table, keyed by id. -/
def ListingsTable := String → Option ListingData

/-- Source `upsertListing(listing)`: INSERT .. ON CONFLICT (id) DO UPDATE SET with
an assignment for every key of the listing object — a full replace of the
row, never a merge. -/
def upsertListing (listing : ListingData) (table : ListingsTable) :
    ListingsTable :=
  fun i => if i = listing.id then some listing else table i

/-! ## Entity-phase batch loop (src/services/schema-discovery.js,
replicateProperties). One iteration of the `while (true)` loop processes
one fetched page: the items are split into chunks of 50, each chunk's
records are mapped and upserted (a per-record try/catch turns a failure
into `{ success: false }` without aborting anything), the last successful
record of each non-empty chunk overwrites the `(newTimestamp, newKey)`
tracker, and the checkpoint is advanced once at the end of the page when
anything succeeded. Per-record success is a Boolean oracle `ok`
(the outcome of `upsertListing` for that record). -/

/-- The chunking loop
`for (let i = 0; i < items.length; i += chunkSize) chunks.push(items.slice(i, i + chunkSize))`. -/
def chunksOf (n : Nat) (l : List α) : List (List α) :=
  if l.isEmpty || n == 0 then []
  else l.take n :: chunksOf n (l.drop n)
termination_by l.length
decreasing_by
  rename_i h
  simp only [Bool.or_eq_true, List.isEmpty_iff, beq_iff_eq, not_or] at h
  simp only [List.length_drop]
  rcases l with _ | ⟨x, xs⟩
  · simp_all
  · simp only [List.length_cons]
    omega

/-- The chunk size hard-coded in `replicateProperties`. -/
def entityChunkSize : Nat := 50

/-- The per-page chunk loop: fold over the chunks accumulating
`(newTimestamp-newKey tracker, batchProcessed)`. For each chunk the
successful results keep their order (Promise.all preserves input order),
their count is added, and when the chunk had any success the tracker is
overwritten with the chunk's last success. -/
def processChunks (ok : RawProperty → Bool) :
    List (List RawProperty) → Option RawProperty → Nat →
    Option RawProperty × Nat
  | [], tracker, batchProcessed => (tracker, batchProcessed)
  | chunk :: rest, tracker, batchProcessed =>
    let successResults := chunk.filter ok
    processChunks ok rest (successResults.getLast?.or tracker)
      (batchProcessed + successResults.length)

/-- The replication cursor `(lastTimestamp, lastKey)`. -/
structure Checkpoint where
  lastTimestamp : String
  lastKey : String
deriving DecidableEq, Repr

/-- One page iteration of `replicateProperties`: returns the checkpoint
after the page, the number of records applied (`batchProcessed`), and how
many times `updateReplicationState` was called for the page. The source
guard is `if (batchProcessed > 0 && newTimestamp && newKey)`. -/
def replicatePropertiesPage (ok : RawProperty → Bool) (cp : Checkpoint)
    (items : List RawProperty) : Checkpoint × Nat × Nat :=
  let (tracker, batchProcessed) :=
    processChunks ok (chunksOf entityChunkSize items) none 0
  match tracker with
  | some r =>
    if 0 < batchProcessed then
      ({ lastTimestamp := r.ModificationTimestamp, lastKey := r.ListingKey },
        batchProcessed, 1)
    else (cp, batchProcessed, 0)
  | none => (cp, batchProcessed, 0)

/-! ## Media-pass candidate selection (src/services/schema-discovery.js,
replicateMedia; src/scripts/run-optimized-replication.js, incremental
branch). `replicateMedia` pages through
`SELECT id FROM listings ORDER BY id LIMIT 100 OFFSET $off` until 500
listing ids are collected or the table is exhausted; the incremental
branch of `runOptimizedReplication` invokes it (with no argument) exactly
when the entity pass applied at least one record. -/

/-- The `while (totalPropertiesProcessed < maxProperties)` paging loop of
`replicateMedia` over the id-ordered listings table, with
`limit = 100` and `maxProperties = 500`. -/
def mediaScanLoop (sortedIds : List String) (offset total : Nat)
    (acc : List String) : List String :=
  if total < 500 then
    let rows := (sortedIds.drop offset).take 100
    if rows = [] then acc
    else mediaScanLoop sortedIds (offset + rows.length) (total + rows.length)
      (acc ++ rows)
  else acc
termination_by 500 - total
decreasing_by
  rename_i hlt hne
  have hpos : 0 < ((sortedIds.drop offset).take 100).length :=
    List.length_pos.mpr hne
  omega

/-- The set of listing ids `replicateMedia` fetches and relinks media for:
the paging loop started at offset 0. -/
def replicateMediaCandidates (sortedIds : List String) : List String :=
  mediaScanLoop sortedIds 0 0 []

/-- The incremental branch of `runOptimizedReplication`: the media pass
runs exactly when the entity pass processed anything, and then scans the
candidate prefix of the whole table. -/
def runIncrementalMediaTargets (propertiesProcessed : Nat)
    (sortedIds : List String) : List String :=
  if 0 < propertiesProcessed then replicateMediaCandidates sortedIds else []

/-! ## Media reconciliation (src/services/schema-discovery.js,
processMediaItem and the per-property linking in replicateMedia;
src/services/ampre-api.js, updateMediaForProperties) -/

/-- A raw upstream Media item, restricted to the fields the media mapping
reads. -/
structure MediaItem where
  MediaKey : String
  MediaType : Option String := none
  MediaCategory : Option String := none
  MediaURL : Option String := none
  MediaStatus : Option String := none
  ImageHeight : Option Int := none
  ImageWidth : Option Int := none
  PreferredPhotoYN : Option Bool := none
  Order : Option Int := none
  ShortDescription : Option String := none
  ModificationTimestamp : String := ""
deriving DecidableEq, Repr

/-- One row of the `listing_media` table, in the shape both call sites
build (`mediaData`). -/
structure MediaRow where
  media_key : String
  listing_id : String
  media_type : Option String
  media_category : Option String
  media_url : Option String
  media_status : Option String
  image_height : Option Int
  image_width : Option Int
  is_preferred : Bool
  display_order : Option Int
  short_description : Option String
  modification_timestamp : String
deriving DecidableEq, Repr

/-- The `mediaData` object both `processMediaItem` and
`updateMediaForProperties` build from a raw item and its parent id
(`PreferredPhotoYN === true`, truthy-guarded `parseInt` on the numeric
fields). -/
def mapMediaItem (mediaItem : MediaItem) (listingId : String) : MediaRow :=
  { media_key := mediaItem.MediaKey,
    listing_id := listingId,
    media_type := mediaItem.MediaType,
    media_category := mediaItem.MediaCategory,
    media_url := mediaItem.MediaURL,
    media_status := mediaItem.MediaStatus,
    image_height := numFieldZ mediaItem.ImageHeight,
    image_width := numFieldZ mediaItem.ImageWidth,
    is_preferred := mediaItem.PreferredPhotoYN = some true,
    display_order := numFieldZ mediaItem.Order,
    short_description := mediaItem.ShortDescription,
    modification_timestamp := mediaItem.ModificationTimestamp }

/-- The storage state the media engine touches: the `listings` table and
the `listing_media` table (keyed by media_key). -/
structure Database where
  listings : ListingsTable
  media : String → Option MediaRow

/-- Source `isListingInDatabase(listingId)`:
`SELECT 1 FROM listings WHERE id = $1 LIMIT 1`. -/
def isListingInDatabase (db : Database) (listingId : String) : Bool :=
  (db.listings listingId).isSome

/-- Source `upsertMedia(mediaData)` applied to the database state. -/
def upsertMedia (db : Database) (row : MediaRow) : Database :=
  { db with media := fun k => if k = row.media_key then some row else db.media k }

/-- Source `processMediaItem(mediaItem, listingId)`: query the parent first; when
it is absent, log a warning and return `false` without touching storage
(the caller never re-invokes it for the item). Otherwise upsert; a thrown
upsert error is caught, logged, and the item reports `false`
(`upsertFails` is the oracle for that throw — the upsert's own transaction
rolls back, leaving storage unchanged). -/
def processMediaItem (db : Database) (mediaItem : MediaItem)
    (listingId : String) (upsertFails : Bool) : Database × Bool :=
  if isListingInDatabase db listingId then
    if upsertFails then (db, false)
    else (upsertMedia db (mapMediaItem mediaItem listingId), true)
  else (db, false)

/-- One per-batch closure of `updateMediaForProperties`: it checks the
parent once (`isListingInDatabase(propertyId)`) and returns
`{ success: false }` with no write when the parent is absent; otherwise it
upserts each item of the batch (failed upserts caught per item), and
reports success when any item succeeded. -/
def updateMediaBatchForProperty (db : Database) (propertyId : String)
    (mediaItemBatch : List MediaItem) (upsertFails : MediaItem → Bool) :
    Database × Bool :=
  if isListingInDatabase db propertyId then
    (mediaItemBatch.foldl
      (fun d item =>
        if upsertFails item then d
        else upsertMedia d (mapMediaItem item propertyId)) db,
      0 < (mediaItemBatch.filter (fun i => ¬ upsertFails i)).length)
  else (db, false)

/-- The flagged-preferred predicate (`item.PreferredPhotoYN === true`). -/
def isFlaggedPreferred (i : MediaItem) : Bool :=
  i.PreferredPhotoYN = some true

/-- The per-property linking computed by `replicateMedia` for one parent:
`none` when no UPDATE is issued (no items, or no item succeeded);
otherwise the `(media_keys, preferred_media_key)` pair written
(`preferredKeysMap[propertyId] || mediaKeysMap[propertyId][0]`). The
preferred pick is computed synchronously, before any concurrency, from
the arrival-order list: `mediaItems.find(item => item.PreferredPhotoYN
=== true)` falling back to the first arrived item. The key list, however,
is built by `mediaKeysMap[propertyId].push(...)` inside the `.then`
callbacks of the concurrently running `processMediaItem` promises, so its
order is the completion order of those concurrent operations — some
permutation of arrival order, fixed here by the explicit
`completionOrder` argument (a scheduling choice the JS runtime makes, not
the program). -/
def replicateMediaLink (mediaItems : List MediaItem)
    (okM : MediaItem → Bool) (completionOrder : List MediaItem) :
    Option (List String × Option String) :=
  if mediaItems = [] then none
  else
    let preferredKey : Option String :=
      match mediaItems.find? isFlaggedPreferred with
      | some i => some i.MediaKey
      | none => mediaItems.head?.map (·.MediaKey)
    let mediaKeys := (completionOrder.filter okM).map (·.MediaKey)
    if mediaKeys = [] then none
    else some (mediaKeys, preferredKey.or mediaKeys.head?)

/-- The per-property linking computed by `updateMediaForProperties` for a
parent whose items fit in a single batch (`MEDIA_ITEM_BATCH_SIZE = 20`).
Within one batch the behaviour is deterministic: each item's async mapper
runs synchronously up to its first `await`, so every key is pushed to the
shared `mediaKeys` array in arrival order before any upsert is awaited
(failed items' keys are therefore included), and the shared preferred
variable is overwritten by each flagged item in that same pass (last
flagged wins); the UPDATE runs only when some upsert succeeded, writing
`result.preferredMediaKey || mediaKeys[0]`. This definition models
exactly that single-batch closure; for more than 20 items the source
splits into batches sharing the same arrays, the aggregation re-pushes
the shared array once per successful batch, and the cross-batch order is
a runtime scheduling choice — that case is outside this definition and
the theorem about it carries the matching `length ≤ 20` hypothesis. -/
def updateMediaForPropertyLink (mediaItems : List MediaItem)
    (okM : MediaItem → Bool) : Option (List String × Option String) :=
  if mediaItems = [] then none
  else
    let mediaKeys := mediaItems.map (·.MediaKey)
    let preferredMediaKey : Option String :=
      (mediaItems.filter isFlaggedPreferred).getLast?.map (·.MediaKey)
    if 0 < (mediaItems.filter okM).length then
      some (mediaKeys, (preferredMediaKey.or mediaKeys.head?).or
        mediaKeys.head?)
    else none

/-! ## Concrete fixtures used to instantiate the theorems below -/

/-- A database with no listings and no media rows. -/
def emptyDatabase : Database :=
  { listings := fun _ => none, media := fun _ => none }

/-- Scenario media item M1: not flagged preferred. -/
def mediaItemM1 : MediaItem :=
  { MediaKey := "M1", ModificationTimestamp := "2024-06-01T00:00:00Z" }

/-- Scenario media item M2: flagged preferred upstream. -/
def mediaItemM2 : MediaItem :=
  { MediaKey := "M2", PreferredPhotoYN := some true,
    ModificationTimestamp := "2024-06-01T00:00:01Z" }

/-- A minimal raw upstream record. -/
def sampleRawProperty : RawProperty :=
  { ListingKey := "L1", ModificationTimestamp := "2024-06-01T00:00:00Z" }

/-- A stored row for the same listing carrying a non-empty media cache. -/
def sampleOldListing : ListingData :=
  { id := "L1", media_keys := ["MOLD"], preferred_media_key := some "MOLD",
    modification_timestamp := "2024-01-01T00:00:00Z",
    raw := sampleRawProperty }

/-- A listings table holding only that stored row. -/
def sampleTable : ListingsTable :=
  fun i => if i = "L1" then some sampleOldListing else none

/-! # Theorems -/

/-! ## Claim C3 — circuit breaker transitions -/

/-- Claim C3 counterexample: with `threshold = 2`, the trace
failure–success–failure opens the circuit although only one consecutive
failure precedes the last call: a success while CLOSED does not restart
the failure count, so the `threshold` failures need not be consecutive as
the claim states. -/
theorem circuitBreaker_opens_without_consecutive_failures :
    (runCalls
        { state := .closed, failureCount := 0, successCount := 0,
          lastFailureTime := 0, threshold := 2, resetTimeout := 60000 }
        [(1, .genuineFailure), (2, .success), (3, .genuineFailure)]).state
      = .opened ∧
    trailingFailures [.genuineFailure, .success, .genuineFailure] = 1 ∧
    1 < 2 := by
  decide

/-- Claim C3 (amended): the state becomes OPEN when, while CLOSED, the
cumulative count of non-throttling failures since the last reset reaches
`threshold` — a success while CLOSED leaves the count untouched; once
OPEN, a call after `resetTimeout` has elapsed proceeds in HALF_OPEN while
an earlier call is rejected unchanged; any failure in HALF_OPEN reopens
the circuit; a success in HALF_OPEN closes it (zeroing both counters)
exactly when the cumulative HALF_OPEN success count reaches 3; throttling
never mutates the breaker. -/
theorem circuitBreaker_transitions (b : CircuitBreaker) (now : Nat)
    (o : Outcome) :
    (b.state = .closed → b.execute now .success = (b, .returned)) ∧
    (b.state = .closed → b.execute now .throttle = (b, .raised429)) ∧
    (b.state = .closed →
      b.execute now .genuineFailure =
        (if b.threshold ≤ b.failureCount + 1 then
          ({ b with
              state := .opened,
              failureCount := b.failureCount + 1,
              lastFailureTime := now }, .raisedFailure)
        else
          ({ b with
              failureCount := b.failureCount + 1,
              lastFailureTime := now }, .raisedFailure))) ∧
    (b.state = .opened → ¬ (b.lastFailureTime + b.resetTimeout < now) →
      b.execute now o = (b, .rejected)) ∧
    (b.state = .opened → b.lastFailureTime + b.resetTimeout < now →
      b.execute now o =
        CircuitBreaker.execute { b with state := .halfOpen } now o) ∧
    (b.state = .halfOpen →
      b.execute now .genuineFailure =
        ({ b with
            state := .opened,
            failureCount := b.failureCount + 1,
            lastFailureTime := now }, .raisedFailure)) ∧
    (b.state = .halfOpen →
      b.execute now .success =
        (if 3 ≤ b.successCount + 1 then
          ({ b with
              state := .closed,
              failureCount := 0,
              successCount := 0 }, .returned)
        else
          ({ b with successCount := b.successCount + 1 }, .returned))) := by
  refine ⟨fun h => ?_, fun h => ?_, fun h => ?_, fun h h' => ?_,
    fun h h' => ?_, fun h => ?_, fun h => ?_⟩ <;>
    simp [CircuitBreaker.execute, h] <;>
    split_ifs <;>
    simp_all

/-- Claim C3 witness: a CLOSED breaker with threshold 5 and four prior
failures opens on the fifth. -/
theorem circuitBreaker_transitions_witness :
    CircuitBreaker.execute
        { state := .closed, failureCount := 4, successCount := 0,
          lastFailureTime := 0, threshold := 5, resetTimeout := 60000 }
        100 .genuineFailure =
      ({ state := .opened, failureCount := 5, successCount := 0,
          lastFailureTime := 100, threshold := 5, resetTimeout := 60000 },
        .raisedFailure) := by
  have h := (circuitBreaker_transitions
    { state := .closed, failureCount := 4, successCount := 0,
      lastFailureTime := 0, threshold := 5, resetTimeout := 60000 }
    100 .success).2.2.1 rfl
  simpa using h

/-! ## Claim C7 — 429 handling: sleep then one retry, no breaker count -/

/-- Helper: the retry loop on `k` consecutive 429s (all carrying
`retry-after = s`) followed by a success sleeps `s * 1000` ms once per 429
and issues exactly one further call per 429. -/
theorem fetchLoop_throttle_replicate (mr base s : Nat) (hs : 0 < s)
    (a : α) :
    ∀ (k retryCount : Nat) (sleeps : List Nat) (calls : Nat),
      retryCount + k ≤ mr →
      fetchLoop mr base
          (List.replicate k (Resp.throttle (some s)) ++ [Resp.ok a])
          retryCount sleeps calls =
        .success a (sleeps ++ List.replicate k (s * 1000))
          (calls + k + 1) := by
  intro k
  induction k with
  | zero => intro rc sleeps calls _; simp [fetchLoop]
  | succ k ih =>
    intro rc sleeps calls hle
    rw [List.replicate_succ, List.cons_append, fetchLoop]
    have hrc : rc < mr := by omega
    simp only [handleRateLimit, if_pos hrc, if_pos hs]
    rw [ih (rc + 1) (sleeps ++ [s * 1000]) (calls + 1) (by omega)]
    rw [List.append_assoc]
    simp [List.replicate_succ]
    omega

/-- Claim C7: a 429 is never counted by the circuit breaker, the caller
sleeps the server-provided `retry-after` seconds (times 1000 ms) once per
429 and then issues exactly one retried call per 429; when the header is
absent the first sleep is the fixed backoff base (`2^0 * base`). -/
theorem throttle_sleeps_once_and_skips_breaker (b : CircuitBreaker)
    (now mr base k s : Nat) (a : α) (hb : b.state = .closed)
    (hk : k ≤ mr) (hs : 0 < s) (hmr : 0 < mr) :
    executeFetch b now mr base
        (List.replicate k (Resp.throttle (some s)) ++ [Resp.ok a]) =
      (b, .returned, .success a (List.replicate k (s * 1000)) (k + 1)) ∧
    executeFetch b now mr base [Resp.throttle none, Resp.ok a] =
      (b, .returned, .success a [base] 2) := by
  constructor
  · rw [executeFetch,
      fetchLoop_throttle_replicate mr base s hs a k 0 [] 0 (by omega)]
    simp [LoopOut.outcome, CircuitBreaker.execute, hb]
  · have h1 : fetchLoop (α := α) mr base [Resp.throttle none, Resp.ok a]
        0 [] 0 = .success a [base] 2 := by
      rw [fetchLoop]
      simp only [handleRateLimit, if_pos hmr]
      rw [fetchLoop]
      simp
    rw [executeFetch, h1]
    simp [LoopOut.outcome, CircuitBreaker.execute, hb]

/-- Claim C7 witness: a single 429 with `retry-after = 3` and default
retry configuration produces exactly one 3000 ms sleep, one retried call
(two calls total), and an unchanged CLOSED breaker with its failure count
still 7. -/
theorem throttle_sleeps_once_and_skips_breaker_witness :
    executeFetch
        { state := .closed, failureCount := 7, successCount := 0,
          lastFailureTime := 0, threshold := 10, resetTimeout := 60000 }
        12345 MAX_RETRIES RETRY_DELAY_BASE
        [Resp.throttle (some 3), Resp.ok ()] =
      ({ state := .closed, failureCount := 7, successCount := 0,
          lastFailureTime := 0, threshold := 10, resetTimeout := 60000 },
        .returned, .success () [3000] 2) := by
  have h := (throttle_sleeps_once_and_skips_breaker
    { state := .closed, failureCount := 7, successCount := 0,
      lastFailureTime := 0, threshold := 10, resetTimeout := 60000 }
    12345 MAX_RETRIES RETRY_DELAY_BASE 1 3 () rfl (by decide) (by decide)
    (by decide)).1
  simpa [List.replicate_succ] using h

/-! ## Claim C9 — token-bucket rate limiter -/

/-- Helper: the drain loop conserves milli-tokens plus 1000 per released
caller. -/
theorem drainQueue_conserves (p : Nat) :
    ∀ m released, (drainQueue m p released).1 +
      1000 * (drainQueue m p released).2.2 = m + 1000 * released := by
  induction p with
  | zero => intro m released; simp [drainQueue]
  | succ p ih =>
    intro m released
    rw [drainQueue]
    split
    · rw [ih]
      omega
    · simp

/-- Helper: one `getToken` call releases at most one caller per 1000
milli-tokens it consumes, and milli-tokens only grow by elapsed time times
the rate (the bucket cap can only lower the credit). -/
theorem getToken_step_bound (rl : RateLimiter) (t : Nat) :
    1000 * ((rl.getToken t).2.1 + (if (rl.getToken t).2.2 then 1 else 0)) +
        (rl.getToken t).1.milliTokens ≤
      rl.milliTokens +
        ((rl.getToken t).1.lastRefill - rl.lastRefill) * rl.tokensPerSecond ∧
    rl.lastRefill ≤ (rl.getToken t).1.lastRefill ∧
    (rl.getToken t).1.tokensPerSecond = rl.tokensPerSecond ∧
    (rl.getToken t).1.lastRefill ≤ max rl.lastRefill t := by
  by_cases he : 0 < t - rl.lastRefill
  · set m := min (1000 * rl.tokensPerSecond)
      (rl.milliTokens + (t - rl.lastRefill) * rl.tokensPerSecond) with hm
    set D := drainQueue m rl.pendingCount 0 with hD
    have hcons : D.1 + 1000 * D.2.2 = m := by
      simpa using drainQueue_conserves rl.pendingCount m 0
    have hmin : m ≤ rl.milliTokens +
        (t - rl.lastRefill) * rl.tokensPerSecond := min_le_right _ _
    have hrefill : rl.refillTokens t =
        ({ rl with
            milliTokens := D.1,
            lastRefill := t,
            pendingCount := D.2.1 }, D.2.2) := by
      unfold RateLimiter.refillTokens
      rw [if_pos he]
    unfold RateLimiter.getToken
    rw [hrefill]
    by_cases h2 : 1000 ≤ D.1
    · rw [if_pos h2]
      refine ⟨?_, ?_, rfl, ?_⟩
      · show 1000 * (D.2.2 + 1) + (D.1 - 1000) ≤
          rl.milliTokens + (t - rl.lastRefill) * rl.tokensPerSecond
        omega
      · show rl.lastRefill ≤ t
        omega
      · exact le_max_right _ _
    · rw [if_neg h2]
      refine ⟨?_, ?_, rfl, ?_⟩
      · show 1000 * (D.2.2 + 0) + D.1 ≤
          rl.milliTokens + (t - rl.lastRefill) * rl.tokensPerSecond
        omega
      · show rl.lastRefill ≤ t
        omega
      · exact le_max_right _ _
  · have hrefill : rl.refillTokens t = (rl, 0) := by
      unfold RateLimiter.refillTokens
      rw [if_neg he]
    unfold RateLimiter.getToken
    rw [hrefill]
    by_cases h2 : 1000 ≤ rl.milliTokens
    · rw [if_pos h2]
      refine ⟨?_, le_refl _, rfl, ?_⟩
      · show 1000 * (0 + 1) + (rl.milliTokens - 1000) ≤
          rl.milliTokens + (rl.lastRefill - rl.lastRefill) * rl.tokensPerSecond
        omega
      · exact le_max_left _ _
    · rw [if_neg h2]
      refine ⟨?_, le_refl _, rfl, ?_⟩
      · show 1000 * (0 + 0) + rl.milliTokens ≤
          rl.milliTokens + (rl.lastRefill - rl.lastRefill) * rl.tokensPerSecond
        omega
      · exact le_max_left _ _

/-- Helper: over any call trace, 1000 times the number of released callers
plus the remaining milli-tokens never exceeds the starting milli-tokens
plus rate times the clock advance, and the clock only moves forward and
never past the latest call time. -/
theorem runTrace_bound (trace : List Nat) (rl : RateLimiter) :
    1000 * (runTrace rl trace).2 + (runTrace rl trace).1.milliTokens ≤
      rl.milliTokens +
        ((runTrace rl trace).1.lastRefill - rl.lastRefill) *
          rl.tokensPerSecond ∧
    rl.lastRefill ≤ (runTrace rl trace).1.lastRefill ∧
    (runTrace rl trace).1.tokensPerSecond = rl.tokensPerSecond ∧
    (∀ tB, rl.lastRefill ≤ tB → (∀ t ∈ trace, t ≤ tB) →
      (runTrace rl trace).1.lastRefill ≤ tB) := by
  induction trace generalizing rl with
  | nil => exact ⟨by simp [runTrace], le_refl _, rfl, fun _ h _ => h⟩
  | cons t ts ih =>
    obtain ⟨hstep, hmono, hrate, hmax⟩ := getToken_step_bound rl t
    obtain ⟨hrec, hmono2, hrate2, hlast2⟩ := ih (rl.getToken t).1
    simp only [runTrace]
    refine ⟨?_, ?_, ?_, ?_⟩
    · rw [hrate] at hrec
      have hsplit : ((runTrace (rl.getToken t).1 ts).1.lastRefill -
            (rl.getToken t).1.lastRefill) +
          ((rl.getToken t).1.lastRefill - rl.lastRefill) =
          (runTrace (rl.getToken t).1 ts).1.lastRefill - rl.lastRefill := by
        omega
      have hadd := Nat.add_mul ((runTrace (rl.getToken t).1 ts).1.lastRefill -
        (rl.getToken t).1.lastRefill)
        ((rl.getToken t).1.lastRefill - rl.lastRefill) rl.tokensPerSecond
      rw [hsplit] at hadd
      omega
    · exact le_trans hmono hmono2
    · rw [hrate2, hrate]
    · intro tB h0 hall
      refine hlast2 tB ?_ fun x hx => hall x (List.mem_cons_of_mem _ hx)
      have ht : t ≤ tB := hall t (List.mem_cons_self _ _)
      omega

/-- Claim C9 counterexample: with a 1 token/second bucket and two callers
arriving at time 0, the second caller joins the queue and is never
released — in the source, queued resolvers run only inside
`refillTokens()`, which is invoked solely from `getToken()`; with no
further calls there is no transition that can release the queued caller,
so "every queued caller is eventually released" fails. -/
theorem rateLimiter_starves_queued_caller :
    (runTrace (mkRateLimiter 1 0) [0, 0]).1.pendingCount = 1 ∧
    (runTrace (mkRateLimiter 1 0) [0, 0]).2 = 1 := by
  decide

/-- Claim C9 (amended): no caller is released faster than the configured
rate — over any call trace whose times stay within `[t0, tEnd]`, the
number of callers released is at most the initial bucket (R tokens) plus
R per elapsed second — but release of a queued caller happens only during
a later `getToken` call, so eventual release is not guaranteed. -/
theorem rateLimiter_rate_bound (r t0 tEnd : Nat) (trace : List Nat)
    (h0 : t0 ≤ tEnd) (h : ∀ t ∈ trace, t ≤ tEnd) :
    1000 * (runTrace (mkRateLimiter r t0) trace).2 ≤
      1000 * r + (tEnd - t0) * r := by
  obtain ⟨hbound, hmono, hrate, hlast⟩ :=
    runTrace_bound trace (mkRateLimiter r t0)
  have hle : (runTrace (mkRateLimiter r t0) trace).1.lastRefill ≤ tEnd :=
    hlast tEnd h0 h
  have hmul : ((runTrace (mkRateLimiter r t0) trace).1.lastRefill - t0) * r ≤
      (tEnd - t0) * r :=
    Nat.mul_le_mul_right r (by omega)
  simp only [mkRateLimiter] at hbound hle hmul ⊢
  omega

/-- Claim C9 witness: three callers at times 0, 500 and 1000 against a
2 token/second bucket release at most the bucget-plus-rate budget. -/
theorem rateLimiter_rate_bound_witness :
    1000 * (runTrace (mkRateLimiter 2 0) [0, 500, 1000]).2 ≤
      1000 * 2 + (1000 - 0) * 2 :=
  rateLimiter_rate_bound 2 0 1000 [0, 500, 1000] (by decide) (by decide)

/-! ## Claim C2 — checkpoint advance is not transactional -/

/-- Claim C2 counterexample: the statement trace of
`updateReplicationState` is a bare SELECT followed by a bare UPDATE — it
issues no BEGIN/COMMIT, so the call does not run "within a single database
transaction" as the claim states (contrast `upsertListing`, which does
wrap its statement). -/
theorem updateReplicationState_not_transactional :
    ¬ wrappedInTransaction updateReplicationStateCmds := by
  decide

/-- Claim C2 (amended): every call sets the watermark to the new pair and
adds `deltaProcessed` to the cumulative counter — the two are written
together in the single UPDATE statement — but the call is not wrapped in a
database transaction: its read of the counter and its write are separate
auto-committed statements (unlike `upsertListing` and `upsertMedia`, which
do open one). -/
theorem updateReplicationState_adds_and_sets (s : ReplicationState)
    (lastTimestamp lastKey : String) (delta : Nat) :
    updateReplicationState (some s) lastTimestamp lastKey delta =
      some { lastTimestamp := lastTimestamp, lastKey := lastKey,
             recordsProcessed := s.recordsProcessed + delta } ∧
    ¬ wrappedInTransaction updateReplicationStateCmds ∧
    wrappedInTransaction upsertListingCmds ∧
    wrappedInTransaction upsertMediaCmds := by
  refine ⟨?_, by decide, by decide, by decide⟩
  unfold updateReplicationState
  split_ifs with h1 <;> simp_all

/-! ## Claim C5 — run-mode selection -/

/-- Claim C5 counterexample: with a non-sentinel Entity checkpoint and a
Media checkpoint whose cumulative counter is 1, the cycle is Incremental,
and an Incremental cycle leaves the Media checkpoint untouched (only the
media-only branch ever writes it) — so the next cycle, and every cycle
after it, is Incremental as well. Media-only therefore never runs, which
contradicts "every 4th cycle runs in Media-only mode"; the trigger is the
counter value `recordsProcessed % 4 == 0`, not a cycle index, and the
modulus 4 is hard-coded rather than configurable. -/
theorem determineSyncMode_not_every_fourth_cycle :
    determineSyncMode
        { lastTimestamp := "2024-05-01T00:00:00Z", lastKey := "X100",
          recordsProcessed := 42 }
        { lastTimestamp := "2024-05-01T00:00:00Z", lastKey := "0",
          recordsProcessed := 1 } = .incremental ∧
    mediaStateAfterCycle
        { lastTimestamp := "2024-05-01T00:00:00Z", lastKey := "X100",
          recordsProcessed := 42 }
        { lastTimestamp := "2024-05-01T00:00:00Z", lastKey := "0",
          recordsProcessed := 1 }
        ["P1"] "2024-05-02T00:00:00Z" 7 =
      { lastTimestamp := "2024-05-01T00:00:00Z", lastKey := "0",
        recordsProcessed := 1 } := by
  constructor
  · simp [determineSyncMode, sentinelTimestamp]
  · simp [mediaStateAfterCycle, determineSyncMode, sentinelTimestamp]

/-- Claim C5 (amended): a cycle is Full exactly when the Entity checkpoint
equals its creation sentinel; otherwise it is Media-only exactly when the
Media checkpoint's cumulative `recordsProcessed` counter is divisible by
the hard-coded 4, and Incremental otherwise; moreover a cycle whose mode
is not Media-only never modifies the Media checkpoint, so the Media-only
trigger is driven by the counter, not by a cycle index. -/
theorem determineSyncMode_spec (propertyState mediaState : ReplicationState)
    (candidates : List String) (now : String) (mediaProcessed : Nat) :
    (determineSyncMode propertyState mediaState = .full ↔
      (propertyState.lastTimestamp = sentinelTimestamp ∧
        propertyState.lastKey = "0")) ∧
    (¬ (propertyState.lastTimestamp = sentinelTimestamp ∧
        propertyState.lastKey = "0") →
      (determineSyncMode propertyState mediaState = .mediaOnly ↔
        mediaState.recordsProcessed % 4 = 0)) ∧
    (¬ (propertyState.lastTimestamp = sentinelTimestamp ∧
        propertyState.lastKey = "0") →
      (determineSyncMode propertyState mediaState = .incremental ↔
        mediaState.recordsProcessed % 4 ≠ 0)) ∧
    (determineSyncMode propertyState mediaState ≠ .mediaOnly →
      mediaStateAfterCycle propertyState mediaState candidates now
        mediaProcessed = mediaState) := by
  unfold mediaStateAfterCycle determineSyncMode
  split_ifs with h1 h2 <;> simp_all

/-- Claim C5 witness: a non-sentinel Entity checkpoint with a Media
counter of 8 selects Media-only. -/
theorem determineSyncMode_spec_witness :
    determineSyncMode
        { lastTimestamp := "2024-05-01T00:00:00Z", lastKey := "X100",
          recordsProcessed := 42 }
        { lastTimestamp := "2024-05-01T00:00:00Z", lastKey := "0",
          recordsProcessed := 8 } = .mediaOnly := by
  have h := (determineSyncMode_spec
    { lastTimestamp := "2024-05-01T00:00:00Z", lastKey := "X100",
      recordsProcessed := 42 }
    { lastTimestamp := "2024-05-01T00:00:00Z", lastKey := "0",
      recordsProcessed := 8 }
    [] "t" 0).2.1
  exact (h (by simp [sentinelTimestamp])).mpr (by norm_num)

/-! ## Claim C1 — entity page: failures skipped, checkpoint advances once
to the latest successful record -/

/-- Helper: the last element of an append is the last of the right part,
falling back to the left. -/
theorem getLast?_append_or (a b : List α) :
    (a ++ b).getLast? = b.getLast?.or a.getLast? := by
  cases hb : b with
  | nil => simp [Option.none_or]
  | cons x xs =>
    rw [List.getLast?_append_of_ne_nil a (by simp)]
    obtain ⟨y, hy⟩ : ∃ y, (x :: xs).getLast? = some y := by
      cases h : (x :: xs).getLast? with
      | none => exact absurd (List.getLast?_eq_none_iff.mp h) (by simp)
      | some y => exact ⟨y, rfl⟩
    rw [hy, Option.or_some]

/-- Helper: the chunk loop partitions the page; flattening the chunks
restores the page. -/
theorem chunksOf_flatten (n : Nat) (hn : n ≠ 0) (l : List α) :
    (chunksOf n l).flatten = l := by
  rw [chunksOf]
  split
  · next h =>
    simp only [Bool.or_eq_true, List.isEmpty_iff, beq_iff_eq] at h
    rcases h with h | h
    · simp [h]
    · exact absurd h hn
  · next h =>
    rw [List.flatten_cons, chunksOf_flatten n hn (l.drop n),
      List.take_append_drop]
termination_by l.length
decreasing_by
  rename_i h
  simp only [Bool.or_eq_true, List.isEmpty_iff, beq_iff_eq, not_or] at h
  simp only [List.length_drop]
  rcases l with _ | ⟨x, xs⟩
  · simp_all
  · simp only [List.length_cons]
    omega

/-- Helper: the chunk fold tracks the last successful record across all
chunks (in page order) and counts every success. -/
theorem processChunks_spec (ok : RawProperty → Bool)
    (chunks : List (List RawProperty)) :
    ∀ (tracker : Option RawProperty) (batchProcessed : Nat),
      processChunks ok chunks tracker batchProcessed =
        ((chunks.flatten.filter ok).getLast?.or tracker,
          batchProcessed + (chunks.flatten.filter ok).length) := by
  induction chunks with
  | nil => intro tracker bp; simp [processChunks]
  | cons c rest ih =>
    intro tracker bp
    rw [processChunks, ih]
    rw [List.flatten_cons, List.filter_append, getLast?_append_or,
      Option.or_assoc, List.length_append, Nat.add_assoc]

/-- Claim C1: in one entity page, a per-record failure is skipped without
aborting the page (every successful record is counted, wherever the
failures sit); the checkpoint is advanced at most once per page; when the
page has any successfully applied record the checkpoint moves to the
`(ModificationTimestamp, ListingKey)` of the one latest in upstream page
order among the successes, and when none succeeds it stays put. -/
theorem replicateProperties_page_checkpoint (ok : RawProperty → Bool)
    (cp : Checkpoint) (items : List RawProperty) :
    (replicatePropertiesPage ok cp items).2.1 = (items.filter ok).length ∧
    (replicatePropertiesPage ok cp items).2.2 ≤ 1 ∧
    (match (items.filter ok).getLast? with
     | some r => replicatePropertiesPage ok cp items =
        ({ lastTimestamp := r.ModificationTimestamp,
           lastKey := r.ListingKey }, (items.filter ok).length, 1)
     | none => replicatePropertiesPage ok cp items = (cp, 0, 0)) := by
  unfold replicatePropertiesPage
  rw [processChunks_spec ok (chunksOf entityChunkSize items) none 0,
    chunksOf_flatten entityChunkSize (by decide) items]
  simp only [Option.or_none, Nat.zero_add]
  cases hl : (items.filter ok).getLast? with
  | none =>
    have hnil : items.filter ok = [] := List.getLast?_eq_none_iff.mp hl
    simp [hnil]
  | some r =>
    have hne : items.filter ok ≠ [] := by
      intro h
      rw [h] at hl
      exact Option.noConfusion hl
    have hpos : 0 < (items.filter ok).length := List.length_pos.mpr hne
    simp [hpos]

/-! ## Claim C4 — the incremental media pass is not restricted to the
cycle's touched entities -/

/-- Helper: started at a 100-divisible offset equal to the running total,
the `replicateMedia` paging loop collects exactly the next
`500 - total` ids of the table. -/
theorem mediaScanLoop_take (sortedIds : List String) (total : Nat)
    (acc : List String) (hdvd : 100 ∣ total) :
    mediaScanLoop sortedIds total total acc =
      acc ++ (sortedIds.drop total).take (500 - total) := by
  rw [mediaScanLoop]
  simp only []
  split
  · next hlt =>
    have h100 : 100 ≤ 500 - total := by omega
    by_cases hrows : (sortedIds.drop total).take 100 = []
    · have hdnil : sortedIds.drop total = [] := by
        rcases List.take_eq_nil_iff.mp hrows with h | h
        · exact absurd h (by norm_num)
        · exact h
      rw [if_pos hrows, hdnil]
      simp
    · rw [if_neg hrows]
      by_cases hfull : 100 ≤ (sortedIds.drop total).length
      · have hlen : ((sortedIds.drop total).take 100).length = 100 := by
          rw [List.length_take]
          omega
        rw [hlen, mediaScanLoop_take sortedIds (total + 100)
          (acc ++ (sortedIds.drop total).take 100) (by omega)]
        rw [List.append_assoc]
        congr 1
        have hdd : sortedIds.drop (total + 100) =
            (sortedIds.drop total).drop 100 := by
          rw [List.drop_drop]
        have hsum : 500 - total = 100 + (500 - (total + 100)) := by omega
        rw [hdd, hsum, List.take_add]
      · have hlen2 : (sortedIds.drop total).take 100 =
            sortedIds.drop total := List.take_of_length_le (by omega)
        rw [hlen2, mediaScanLoop]
        have hlt2 : total + (sortedIds.drop total).length < 500 := by omega
        have hdrop2 :
            sortedIds.drop (total + (sortedIds.drop total).length) = [] := by
          rw [← List.drop_drop, List.drop_length]
        simp only [if_pos hlt2, hdrop2, List.take_nil, if_pos rfl]
        rw [List.take_of_length_le (by omega :
          (sortedIds.drop total).length ≤ 500 - total)]
        simp
  · next hge =>
    have h0 : 500 - total = 0 := by omega
    rw [h0]
    simp
termination_by 500 - total
decreasing_by
  omega

/-- Claim C4 counterexample: a cycle whose entity pass touched only the
listing `"B"` (one record applied, so the incremental branch does run the
media pass) still fetches media for `"A"`, a listing the cycle never
touched: `replicateMedia` selects its candidates from the whole listings
table in id order, ignoring the touched set. -/
theorem incremental_media_pass_not_restricted :
    (replicatePropertiesPage (fun _ => true)
        { lastTimestamp := "2024-01-01T00:00:00Z", lastKey := "0" }
        [{ ListingKey := "B",
           ModificationTimestamp := "2024-06-01T00:00:00Z" }]).2.1 = 1 ∧
    runIncrementalMediaTargets 1 ["A", "B"] = ["A", "B"] ∧
    "A" ∈ runIncrementalMediaTargets 1 ["A", "B"] ∧
    "A" ∉ (["B"] : List String) := by
  have htargets : runIncrementalMediaTargets 1 ["A", "B"] = ["A", "B"] := by
    unfold runIncrementalMediaTargets replicateMediaCandidates
    rw [if_pos (by norm_num), mediaScanLoop_take ["A", "B"] 0 []
      (dvd_zero 100)]
    simp
  refine ⟨?_, htargets, by rw [htargets]; simp, by simp⟩
  unfold replicatePropertiesPage
  rw [processChunks_spec, chunksOf_flatten entityChunkSize (by decide)]
  simp

/-- Claim C4 (amended): in Incremental mode the media pass runs exactly
when the entity pass applied at least one record, and it then fetches and
relinks media for the first up-to-500 listings of the entire listings
table in ascending id order — the candidate set does not depend on which
entities the cycle's entity pass touched. -/
theorem incremental_media_pass_scans_table_prefix
    (propertiesProcessed : Nat) (sortedIds : List String) :
    runIncrementalMediaTargets propertiesProcessed sortedIds =
      if 0 < propertiesProcessed then sortedIds.take 500 else [] := by
  unfold runIncrementalMediaTargets replicateMediaCandidates
  rw [mediaScanLoop_take sortedIds 0 [] (dvd_zero 100)]
  simp

/-! ## Claim C6 — orphan media is never written -/

/-- Claim C6: when the parent listing is absent from storage at processing
time, neither media-writing path touches storage: `processMediaItem`
returns `false` with the database unchanged (and its callers never
re-invoke it for the item), and the `updateMediaForProperties` per-batch
closure reports failure with the database unchanged, whatever the batch
contents and whatever the upsert oracle says. -/
theorem media_orphan_never_written (db : Database) (mediaItem : MediaItem)
    (mediaItemBatch : List MediaItem) (listingId : String)
    (upsertFails : Bool) (upsertFailsB : MediaItem → Bool)
    (h : isListingInDatabase db listingId = false) :
    processMediaItem db mediaItem listingId upsertFails = (db, false) ∧
    updateMediaBatchForProperty db listingId mediaItemBatch upsertFailsB =
      (db, false) := by
  constructor
  · unfold processMediaItem
    rw [h]
    simp
  · unfold updateMediaBatchForProperty
    rw [h]
    simp

/-- Claim C6 witness: the scenario item for unknown parent `"E404"`
against an empty database — zero rows written, failure reported, in both
paths. -/
theorem media_orphan_never_written_witness :
    processMediaItem emptyDatabase
        { MediaKey := "M404", ModificationTimestamp := "t" } "E404" false =
      (emptyDatabase, false) ∧
    updateMediaBatchForProperty emptyDatabase "E404"
        [{ MediaKey := "M404", ModificationTimestamp := "t" }]
        (fun _ => false) = (emptyDatabase, false) :=
  media_orphan_never_written emptyDatabase
    { MediaKey := "M404", ModificationTimestamp := "t" }
    [{ MediaKey := "M404", ModificationTimestamp := "t" }]
    "E404" false (fun _ => false) rfl

/-! ## Claim C8 — preferred pick and arrival-order key list -/

/-- Helper: the first element satisfying a predicate is the head of the
filtered list. -/
theorem find?_eq_filter_head? (p : α → Bool) (l : List α) :
    l.find? p = (l.filter p).head? := by
  induction l with
  | nil => rfl
  | cons x xs ih =>
    by_cases h : p x
    · simp [List.find?_cons, List.filter_cons, h]
    · simp only [List.find?_cons, List.filter_cons, h]
      simp only [Bool.false_eq_true, if_false]
      exact ih

/-- Claim C8 counterexample: for the claim's own scenario — items
`["M1", "M2"]` arriving with `M2` flagged preferred, both applied — the
completion order `M2`-before-`M1` is a legal schedule of the concurrent
`.then` callbacks (a permutation of arrival order), and under it the
stored list is `["M2", "M1"]`, not the arrival order `["M1", "M2"]` the
claim asserts; the preferred key is still `"M2"`. The cached media-key
list is therefore not guaranteed to be stored in arrival order. -/
theorem media_link_not_arrival_order :
    ([mediaItemM2, mediaItemM1].Perm [mediaItemM1, mediaItemM2]) ∧
    replicateMediaLink [mediaItemM1, mediaItemM2] (fun _ => true)
        [mediaItemM2, mediaItemM1] = some (["M2", "M1"], some "M2") ∧
    (["M2", "M1"] : List String) ≠ ["M1", "M2"] := by
  refine ⟨List.Perm.swap _ _ _, ?_, by simp⟩
  unfold replicateMediaLink
  rw [if_neg (by simp)]
  simp [isFlaggedPreferred, mediaItemM1, mediaItemM2, List.find?_cons]

/-- Claim C8 (amended): whenever media items are reconciled for a parent
(items non-empty, at most one flagged preferred, at least one applied),
the preferred key is the item upstream flags as preferred — falling back
to the first item in arrival order when none is flagged — under every
completion schedule; the key list `replicateMedia` stores holds the
successfully applied items' keys in the completion order of their
concurrent upserts, a permutation of the arrival-order successes rather
than the arrival order itself; and for a parent whose items fit a single
20-item batch, `updateMediaForProperties` stores every arrived key in
arrival order with the same preferred pick. -/
theorem media_link_preferred_and_order (mediaItems : List MediaItem)
    (okM : MediaItem → Bool) (completionOrder : List MediaItem)
    (hsched : completionOrder.Perm mediaItems)
    (h1 : mediaItems ≠ [])
    (h2 : (mediaItems.filter isFlaggedPreferred).length ≤ 1)
    (h3 : mediaItems.filter okM ≠ [])
    (h20 : mediaItems.length ≤ 20) :
    replicateMediaLink mediaItems okM completionOrder =
      some ((completionOrder.filter okM).map (·.MediaKey),
        (match mediaItems.find? isFlaggedPreferred with
         | some i => some i.MediaKey
         | none => mediaItems.head?.map (·.MediaKey))) ∧
    ((completionOrder.filter okM).map (·.MediaKey)).Perm
      ((mediaItems.filter okM).map (·.MediaKey)) ∧
    updateMediaForPropertyLink mediaItems okM =
      some (mediaItems.map (·.MediaKey),
        (match mediaItems.find? isFlaggedPreferred with
         | some i => some i.MediaKey
         | none => mediaItems.head?.map (·.MediaKey))) := by
  have hpermf : (completionOrder.filter okM).Perm
      (mediaItems.filter okM) := hsched.filter okM
  have hcne : completionOrder.filter okM ≠ [] := by
    intro h
    rw [h] at hpermf
    exact h3 hpermf.nil_eq.symm
  obtain ⟨x, xs, rfl⟩ : ∃ x xs, mediaItems = x :: xs := by
    rcases mediaItems with _ | ⟨x, xs⟩
    · exact absurd rfl h1
    · exact ⟨x, xs, rfl⟩
  refine ⟨?_, hpermf.map _, ?_⟩
  · unfold replicateMediaLink
    rw [if_neg (by simp)]
    rw [if_neg (by simpa using hcne)]
    cases hf : (x :: xs).find? isFlaggedPreferred with
    | some i => simp
    | none => simp
  · unfold updateMediaForPropertyLink
    rw [if_neg (by simp)]
    rw [if_pos (List.length_pos.mpr h3)]
    rw [find?_eq_filter_head? isFlaggedPreferred (x :: xs)]
    rcases hfl : (x :: xs).filter isFlaggedPreferred with _ | ⟨f, fs⟩
    · simp [hfl]
    · have hfs : fs = [] := by
        rw [hfl] at h2
        simp only [List.length_cons] at h2
        exact List.length_eq_zero.mp (by omega)
      subst hfs
      simp [hfl]

/-- Claim C8 witness: the scenario items `["M1", "M2"]` with `M2` flagged
preferred, both applied, under the arrival-order completion schedule —
both paths store `mediaKeys = ["M1", "M2"]` and
`preferredMediaKey = "M2"`. -/
theorem media_link_preferred_and_order_witness :
    replicateMediaLink [mediaItemM1, mediaItemM2] (fun _ => true)
        [mediaItemM1, mediaItemM2] = some (["M1", "M2"], some "M2") ∧
    updateMediaForPropertyLink [mediaItemM1, mediaItemM2] (fun _ => true) =
      some (["M1", "M2"], some "M2") := by
  have h := media_link_preferred_and_order [mediaItemM1, mediaItemM2]
    (fun _ => true) [mediaItemM1, mediaItemM2] (List.Perm.refl _)
    (by simp) (by simp [isFlaggedPreferred, mediaItemM1, mediaItemM2])
    (by simp) (by simp)
  refine ⟨?_, ?_⟩
  · rw [h.1]
    simp [isFlaggedPreferred, mediaItemM1, mediaItemM2, List.find?_cons]
  · rw [h.2.2]
    simp [isFlaggedPreferred, mediaItemM1, mediaItemM2, List.find?_cons]

/-! ## Claim C10 — entity re-upsert resets the media cache -/

/-- Claim C10: `mapProperty` always emits `media_keys = []` and
`preferred_media_key = null`, and `upsertListing` replaces every mapped
column on id conflict — so re-upserting an entity whose stored row carries
a non-empty cached media-key list leaves the stored row with an empty
`media_keys` and a null `preferred_media_key` until a media pass relinks
them. -/
theorem entity_upsert_resets_media_cache (property : RawProperty)
    (table : ListingsTable) (old : ListingData)
    (h1 : table property.ListingKey = some old)
    (h2 : old.media_keys ≠ []) :
    (mapProperty property).media_keys = [] ∧
    (mapProperty property).preferred_media_key = none ∧
    upsertListing (mapProperty property) table property.ListingKey =
      some (mapProperty property) := by
  refine ⟨rfl, rfl, ?_⟩
  unfold upsertListing mapProperty
  simp

/-- Claim C10 witness: the stored row for `"L1"` holds
`media_keys = ["MOLD"]`; re-upserting the mapped raw record leaves the row
with an empty media-key list and no preferred key. -/
theorem entity_upsert_resets_media_cache_witness :
    (mapProperty sampleRawProperty).media_keys = [] ∧
    (mapProperty sampleRawProperty).preferred_media_key = none ∧
    upsertListing (mapProperty sampleRawProperty) sampleTable
      sampleRawProperty.ListingKey = some (mapProperty sampleRawProperty) :=
  entity_upsert_resets_media_cache sampleRawProperty sampleTable
    sampleOldListing (by rfl) (by simp [sampleOldListing])

end RealtorDb
